import Mathlib

/-!
Shallow embedding of the chaos-and-retry execution engine of
`src/main.py` (class `DatabaseChaosRunner`), and proofs about it.

Python floats that only ever hold wall-clock durations are modelled as
`ℚ`; Python `int` arguments as `ℤ`; `None`-able strings as
`Option String`; a `psycopg2.Error` raised during an attempt as the
`Except.error` branch of the attempt's outcome.  The calls to
`random.random()` / `random.choice` are modelled by explicit draw
arguments supplied by an environment, so every run is a deterministic
function of its environment.

The `conn.rollback()` call in the `except` handler (main.py line 149) is
itself fallible: on a connection that is already broken — for example
after the `kill_connection` chaos terminates the backend — psycopg2's
rollback raises, and since that happens inside the handler the new error
propagates out of `execute_query_with_retry` uncaught.  The environment
therefore also supplies the rollback outcome of each attempt, and the
embedded function returns an `Except`: `Except.error` is an exception
escaping the function's boundary, `Except.ok` a normal return.
-/

/-- One row of a result set, as returned by `cursor.fetchall()`.
Only its presence matters to the harness (`rows_returned = len(results)`),
so a row is modelled as a list of field strings. -/
def Row : Type := List String

instance : DecidableEq Row := by
  unfold Row
  infer_instance

/-- Embeds the dataclass `QueryMetrics` of `src/main.py` (lines 17-27).
`execution_time` is the wall-clock span measured by the `finally` block;
`timestamp` is `datetime.now()` at construction, modelled as an opaque
integer. -/
structure QueryMetrics where
  prompt : String
  sql_query : String
  execution_time : ℚ
  retry_count : ℕ
  success : Bool
  error_type : Option String
  rows_returned : ℕ
  chaos_type : Option String
  timestamp : ℤ
deriving Repr, DecidableEq

/-- Embeds `simulate_resource_constraints` (main.py lines 56-63).
The Python function burns CPU for 1-2 s when `random.random() < 0.2` and
has no `return` statement, so it returns `None` on every path — whether
or not the 20% branch fired.  `draw` is the `random.random()` sample. -/
def simulate_resource_constraints (draw : ℚ) : Option String :=
  if draw < mkRat 1 5 then none else none

/-- The catalogue keys of `simulate_db_specific_chaos` (main.py lines 70-79),
in dict insertion order, as enumerated by `random.choice(list(...keys()))`. -/
def dbChaosKinds : List String :=
  ["long_query", "timeout", "kill_connection", "temp_table_stress"]

/-- Embeds `simulate_db_specific_chaos` (main.py lines 65-91).
Returns `None` when chaos is off or `random.random() > 0.3`; otherwise
picks a catalogue key uniformly (`choice` indexes the pick), best-effort
executes the chaos SQL (errors swallowed; the damage it may do to the
connection surfaces through the attempt's `outcome` and `rollback`
fields), and returns the chosen key. -/
def simulate_db_specific_chaos (chaos_active : Bool) (draw : ℚ) (choice : ℕ) :
    Option String :=
  if !chaos_active || decide (draw > mkRat 3 10) then none
  else some (dbChaosKinds.getD (choice % 4) "long_query")

/-- The issue keys of `simulate_network_issues` (main.py lines 98-102),
in dict insertion order. -/
def networkIssueKinds : List String :=
  ["latency", "timeout", "partition"]

/-- Embeds `simulate_network_issues` (main.py lines 93-111).
Returns `None` when chaos is off or `random.random() > 0.2`; otherwise
picks an issue key, sleeps for its duration range (not modelled), and
returns the key. -/
def simulate_network_issues (chaos_active : Bool) (draw : ℚ) (choice : ℕ) :
    Option String :=
  if !chaos_active || decide (draw > mkRat 1 5) then none
  else some (networkIssueKinds.getD (choice % 3) "latency")

/-- The nondeterministic inputs consumed by one iteration of the retry
loop in `execute_query_with_retry` (main.py lines 128-156): the random
draws of the three chaos simulators, the outcome of
`cursor.execute(sql_query); cursor.fetchall(); conn.commit()`
(`Except.ok` rows, or `Except.error` the text of the `psycopg2.Error`),
the outcome of the `conn.rollback()` run by the `except` handler of this
attempt (main.py line 149: `none` when the rollback succeeds, or
`some e` when the rollback itself raises `e`, as it does on a broken or
closed connection), and the value of `time.time() - start_time` read by
the `finally` block of this iteration. -/
structure AttemptEnv where
  resource_draw : ℚ
  network_draw : ℚ
  network_choice : ℕ
  db_draw : ℚ
  db_choice : ℕ
  outcome : Except String (List Row)
  rollback : Option String
  elapsed : ℚ

/-- The chaos scenario reported to the retry loop by one iteration:
`network_issue or db_chaos` (main.py lines 135-136).  The result of
`simulate_resource_constraints` is not bound by the caller (line 131),
matching the Python code, where the call's value is discarded. -/
def firedFault (chaos_active : Bool) (e : AttemptEnv) : Option String :=
  let _resource := simulate_resource_constraints e.resource_draw
  let network_issue := simulate_network_issues chaos_active e.network_draw e.network_choice
  let db_chaos := simulate_db_specific_chaos chaos_active e.db_draw e.db_choice
  network_issue.orElse fun _ => db_chaos

/-- Lines 135-136 of main.py: `if network_issue or db_chaos:
metrics.chaos_type = network_issue or db_chaos`. -/
def applyChaos (m : QueryMetrics) (fault : Option String) : QueryMetrics :=
  if fault.isSome then { m with chaos_type := fault } else m

/-- The retry loop body of `execute_query_with_retry` (main.py lines
128-158), one constructor step per remaining attempt index.  A successful
attempt returns inside the `try`; a `psycopg2.Error` enters the `except`
branch, which first runs `conn.rollback()` (line 149): if the rollback
itself raises, that exception propagates out of the function — the
`Except.error` result — otherwise the branch records the error and falls
through to the next iteration.  The `finally` block updates
`execution_time` on the surviving paths (Python runs `finally` even on
`return`, and `metrics` is a mutable reference, so the returned record
carries the update; on the propagating-exception path the local record is
lost, so the update is unobservable). -/
def retryLoop (chaos_active : Bool) (env : ℕ → AttemptEnv) :
    List ℕ → QueryMetrics → Except String (QueryMetrics × Option (List Row))
  | [], m => Except.ok (m, none)
  | attempt :: rest, m =>
    let e := env attempt
    let m1 := applyChaos m (firedFault chaos_active e)
    match e.outcome with
    | Except.ok results =>
        Except.ok
          ({ m1 with success := true
                     rows_returned := results.length
                     retry_count := attempt
                     execution_time := e.elapsed }, some results)
    | Except.error err =>
        match e.rollback with
        | some rbErr => Except.error rbErr
        | none =>
            retryLoop chaos_active env rest
              { m1 with error_type := some err
                        retry_count := attempt + 1
                        execution_time := e.elapsed }

/-- Embeds `execute_query_with_retry` (main.py lines 113-158).
`max_retries` is the Python `int` argument (default 3); the `for attempt
in range(max_retries)` loop visits attempt indices `0 .. max_retries-1`
(none when `max_retries <= 0`).  `ts` is `datetime.now()` at entry.
`Except.ok` is a normal return of the Python `(metrics, results)` pair;
`Except.error` is an exception escaping the function (a rollback failure
raised inside the `except` handler). -/
def execute_query_with_retry (chaos_active : Bool) (env : ℕ → AttemptEnv)
    (sql_query : String) (ts : ℤ) (max_retries : ℤ) :
    Except String (QueryMetrics × Option (List Row)) :=
  retryLoop chaos_active env (List.range max_retries.toNat)
    { prompt := ""
      sql_query := sql_query
      execution_time := 0
      retry_count := 0
      success := false
      error_type := none
      rows_returned := 0
      chaos_type := none
      timestamp := ts }

/-- Instrumentation: the attempt indices on which the loop body of
`execute_query_with_retry` actually runs — every index up to and
including the first successful one, or the first one whose rollback
raises (aborting the whole call), or all of them when the loop exhausts
the window.  Derived from the same environment the loop reads. -/
def executedAttempts (env : ℕ → AttemptEnv) : List ℕ → List ℕ
  | [] => []
  | attempt :: rest =>
    match (env attempt).outcome with
    | Except.ok _ => [attempt]
    | Except.error _ =>
      match (env attempt).rollback with
      | some _ => [attempt]
      | none => attempt :: executedAttempts env rest

/-- The number of query attempts consumed by a call of
`execute_query_with_retry` with the given environment and `max_retries`. -/
def attemptsConsumed (env : ℕ → AttemptEnv) (max_retries : ℤ) : ℕ :=
  (executedAttempts env (List.range max_retries.toNat)).length

/-- Embeds the analysis dictionary built by `analyze_metrics`
(main.py lines 160-174).  `max_execution_time` is `List.maximum`
(a `WithBot ℚ`, never `⊥` on the non-empty lists the function computes
it for); `avg_execution_time` is `statistics.mean`, exact on `ℚ`. -/
structure Analysis where
  total_queries : ℕ
  successful_queries : ℕ
  avg_execution_time : ℚ
  max_execution_time : WithBot ℚ
  total_retries : ℕ
  chaos_incidents : ℕ
deriving Repr, DecidableEq

/-- Embeds `analyze_metrics` (main.py lines 160-174): on an empty metrics
list it returns the sentinel string "No metrics collected yet." instead
of an analysis; otherwise the six aggregates. -/
def analyze_metrics (metrics : List QueryMetrics) : Except String Analysis :=
  if metrics.isEmpty then Except.error "No metrics collected yet."
  else Except.ok
    { total_queries := metrics.length
      successful_queries := (metrics.filter (fun m => m.success)).length
      avg_execution_time :=
        (metrics.map (fun m => m.execution_time)).sum / metrics.length
      max_execution_time := (metrics.map (fun m => m.execution_time)).maximum
      total_retries := (metrics.map (fun m => m.retry_count)).sum
      chaos_incidents := (metrics.filter (fun m => m.chaos_type.isSome)).length }

/-! ### Basic facts about the loop body -/

@[simp]
theorem applyChaos_success (m : QueryMetrics) (f : Option String) :
    (applyChaos m f).success = m.success := by
  unfold applyChaos; split <;> rfl

@[simp]
theorem applyChaos_error_type (m : QueryMetrics) (f : Option String) :
    (applyChaos m f).error_type = m.error_type := by
  unfold applyChaos; split <;> rfl

@[simp]
theorem applyChaos_retry_count (m : QueryMetrics) (f : Option String) :
    (applyChaos m f).retry_count = m.retry_count := by
  unfold applyChaos; split <;> rfl

theorem applyChaos_chaos_type (m : QueryMetrics) (f : Option String) :
    (applyChaos m f).chaos_type = if f.isSome then f else m.chaos_type := by
  unfold applyChaos; split <;> rfl

theorem retryLoop_nil (ca : Bool) (env : ℕ → AttemptEnv) (m : QueryMetrics) :
    retryLoop ca env [] m = Except.ok (m, none) := rfl

/-- The record mutation performed on a successful attempt
(main.py lines 143-146, plus the `finally` on line 156), as one function. -/
def successUpdate (m : QueryMetrics) (rs : List Row) (t : ℚ) (attempt : ℕ) :
    QueryMetrics :=
  { m with success := true
           rows_returned := rs.length
           retry_count := attempt
           execution_time := t }

/-- The record mutation performed on a failed attempt whose rollback
succeeded (main.py lines 150-151, plus the `finally` on line 156), as one
function. -/
def errorUpdate (m : QueryMetrics) (err : String) (t : ℚ) (attempt : ℕ) :
    QueryMetrics :=
  { m with error_type := some err
           retry_count := attempt + 1
           execution_time := t }

@[simp]
theorem successUpdate_success (m : QueryMetrics) (rs : List Row) (t : ℚ) (a : ℕ) :
    (successUpdate m rs t a).success = true := rfl

@[simp]
theorem successUpdate_retry_count (m : QueryMetrics) (rs : List Row) (t : ℚ) (a : ℕ) :
    (successUpdate m rs t a).retry_count = a := rfl

@[simp]
theorem successUpdate_error_type (m : QueryMetrics) (rs : List Row) (t : ℚ) (a : ℕ) :
    (successUpdate m rs t a).error_type = m.error_type := rfl

@[simp]
theorem successUpdate_chaos_type (m : QueryMetrics) (rs : List Row) (t : ℚ) (a : ℕ) :
    (successUpdate m rs t a).chaos_type = m.chaos_type := rfl

@[simp]
theorem successUpdate_rows_returned (m : QueryMetrics) (rs : List Row) (t : ℚ) (a : ℕ) :
    (successUpdate m rs t a).rows_returned = rs.length := rfl

@[simp]
theorem errorUpdate_success (m : QueryMetrics) (err : String) (t : ℚ) (a : ℕ) :
    (errorUpdate m err t a).success = m.success := rfl

@[simp]
theorem errorUpdate_retry_count (m : QueryMetrics) (err : String) (t : ℚ) (a : ℕ) :
    (errorUpdate m err t a).retry_count = a + 1 := rfl

@[simp]
theorem errorUpdate_error_type (m : QueryMetrics) (err : String) (t : ℚ) (a : ℕ) :
    (errorUpdate m err t a).error_type = some err := rfl

@[simp]
theorem errorUpdate_chaos_type (m : QueryMetrics) (err : String) (t : ℚ) (a : ℕ) :
    (errorUpdate m err t a).chaos_type = m.chaos_type := rfl

theorem retryLoop_cons_ok (ca : Bool) (env : ℕ → AttemptEnv) (a : ℕ)
    (rest : List ℕ) (m : QueryMetrics) (rs : List Row)
    (h : (env a).outcome = Except.ok rs) :
    retryLoop ca env (a :: rest) m =
      Except.ok
        (successUpdate (applyChaos m (firedFault ca (env a))) rs (env a).elapsed a,
          some rs) := by
  simp only [retryLoop, successUpdate, h]

theorem retryLoop_cons_error (ca : Bool) (env : ℕ → AttemptEnv) (a : ℕ)
    (rest : List ℕ) (m : QueryMetrics) (err : String)
    (h : (env a).outcome = Except.error err)
    (hrb : (env a).rollback = none) :
    retryLoop ca env (a :: rest) m =
      retryLoop ca env rest
        (errorUpdate (applyChaos m (firedFault ca (env a))) err (env a).elapsed a) := by
  simp only [retryLoop, errorUpdate, h, hrb]

theorem retryLoop_cons_rollback_error (ca : Bool) (env : ℕ → AttemptEnv) (a : ℕ)
    (rest : List ℕ) (m : QueryMetrics) (err rbErr : String)
    (h : (env a).outcome = Except.error err)
    (hrb : (env a).rollback = some rbErr) :
    retryLoop ca env (a :: rest) m = Except.error rbErr := by
  simp only [retryLoop, h, hrb]

theorem executedAttempts_cons_ok (env : ℕ → AttemptEnv) (a : ℕ) (rest : List ℕ)
    (rs : List Row) (h : (env a).outcome = Except.ok rs) :
    executedAttempts env (a :: rest) = [a] := by
  simp only [executedAttempts, h]

theorem executedAttempts_cons_error (env : ℕ → AttemptEnv) (a : ℕ) (rest : List ℕ)
    (err : String) (h : (env a).outcome = Except.error err)
    (hrb : (env a).rollback = none) :
    executedAttempts env (a :: rest) = a :: executedAttempts env rest := by
  simp only [executedAttempts, h, hrb]

/-- An attempt environment with no chaos (all draws above the activation
thresholds) whose query attempt succeeds with the given rows. -/
def quietOk (rows : List Row) : AttemptEnv :=
  { resource_draw := 1, network_draw := 1, network_choice := 0,
    db_draw := 1, db_choice := 0, outcome := Except.ok rows,
    rollback := none, elapsed := 0 }

/-- An attempt environment with no chaos whose query attempt raises a
`psycopg2.Error` carrying the given message, after which the rollback
succeeds. -/
def quietErr (msg : String) : AttemptEnv :=
  { resource_draw := 1, network_draw := 1, network_choice := 0,
    db_draw := 1, db_choice := 0, outcome := Except.error msg,
    rollback := none, elapsed := 0 }

/-- An attempt environment modelling a connection that is already broken
(as the `kill_connection` chaos of main.py line 73 leaves it): the query
attempt raises, and the `conn.rollback()` in the `except` handler raises
too. -/
def brokenConnectionEnv : ℕ → AttemptEnv :=
  fun _ =>
    { resource_draw := 1, network_draw := 1, network_choice := 0,
      db_draw := 1, db_choice := 0,
      outcome := Except.error "server closed the connection unexpectedly",
      rollback := some "connection already closed", elapsed := 0 }

/-- The exit postcondition of a call that does not raise: a normal return
whose record is either a success paired with a result set, or an
exhausted failure paired with `none` and a recorded error.  `False` on a
propagated exception. -/
def normalReturn (x : Except String (QueryMetrics × Option (List Row))) : Prop :=
  match x with
  | Except.error _ => False
  | Except.ok r =>
      (r.1.success = true ∧ r.2.isSome = true) ∨
      (r.1.success = false ∧ r.2 = none ∧ r.1.error_type.isSome = true)

/-- Any nonempty run of the retry loop starting from a not-yet-successful
metrics record, on which every rollback succeeds, returns normally and
ends in exactly one of the two terminal shapes: success with a result
set, or failure with no result set and a recorded error. -/
theorem retryLoop_boundary (ca : Bool) (env : ℕ → AttemptEnv) (as : List ℕ) :
    ∀ m : QueryMetrics, m.success = false → as ≠ [] →
      (∀ a ∈ as, (env a).rollback = none) →
      normalReturn (retryLoop ca env as m) := by
  induction as with
  | nil => intro m _ hne _; exact absurd rfl hne
  | cons a rest ih =>
    intro m hm _ hrb
    cases hout : (env a).outcome with
    | ok rs =>
      rw [retryLoop_cons_ok ca env a rest m rs hout]
      exact Or.inl ⟨rfl, rfl⟩
    | error err =>
      have hra : (env a).rollback = none := hrb a (List.mem_cons_self a rest)
      rw [retryLoop_cons_error ca env a rest m err hout hra]
      by_cases hr : rest = []
      · subst hr
        rw [retryLoop_nil]
        exact Or.inr ⟨by simpa using hm, rfl, rfl⟩
      · exact ih _ (by simpa using hm) hr fun b hb => hrb b (List.mem_cons_of_mem a hb)

/-- Claim C6 counterexample: on a connection that is already broken (as the
`kill_connection` chaos leaves it), the query attempt raises a
`psycopg2.Error` and the `conn.rollback()` on main.py line 149 — executed
inside the `except` handler — raises too; that second error propagates
past the function's boundary, so the call yields a raised exception
instead of a `(Metrics, result)` pair: the error is not absorbed into the
metrics record. -/
theorem rollback_error_escapes_boundary :
    execute_query_with_retry true brokenConnectionEnv "SELECT 9;" 0 3 =
      Except.error "connection already closed" := by
  rfl

/-- Claim C6 amended: for every environment in which the rollbacks run by
the `except` handler succeed, every query string and `max_retries >= 1`,
`execute_query_with_retry` raises nothing — each `psycopg2.Error` raised
by an attempt is absorbed into the metrics record — and it returns either
a success record with a result set or an exhausted record with no result
set and the last error recorded; but when a rollback itself raises (e.g.
on a connection broken by the `kill_connection` chaos), that error
propagates past the function's boundary. -/
theorem execute_query_with_retry_no_raise_when_rollback_ok (ca : Bool)
    (env : ℕ → AttemptEnv) (q : String) (ts : ℤ) (mr : ℤ) (h : 1 ≤ mr)
    (hrb : ∀ a ∈ List.range mr.toNat, (env a).rollback = none) :
    normalReturn (execute_query_with_retry ca env q ts mr) := by
  unfold execute_query_with_retry
  exact retryLoop_boundary ca env (List.range mr.toNat) _ rfl
    (by rw [Ne, List.range_eq_nil]; omega) hrb

/-- Witness for `execute_query_with_retry_no_raise_when_rollback_ok` at a
concrete always-failing environment whose rollbacks succeed, with
`max_retries = 2`. -/
theorem execute_query_with_retry_no_raise_when_rollback_ok_witness :
    (1 : ℤ) ≤ 2 ∧
    normalReturn (execute_query_with_retry true (fun _ => quietErr "boom") "SELECT 1;" 0 2) :=
  ⟨by norm_num,
    execute_query_with_retry_no_raise_when_rollback_ok true (fun _ => quietErr "boom")
      "SELECT 1;" 0 2 (by norm_num) fun a _ => rfl⟩

/-- Counting attempts along the retry loop over the index window
`s, s+1, ..., s+n-1`, on a run that returns normally: on success the
executed-attempt count exceeds the recorded `retry_count - s` by one; on
exhaustion (all `n ≥ 1` attempts failed) `retry_count` ends at `s + n`
and all `n` attempts are executed. -/
theorem retryLoop_range'_count (ca : Bool) (env : ℕ → AttemptEnv) :
    ∀ (n s : ℕ) (m : QueryMetrics), m.success = false →
      ∀ r : QueryMetrics × Option (List Row),
        retryLoop ca env (List.range' s n) m = Except.ok r →
        ((r.1.success = true →
            (executedAttempts env (List.range' s n)).length + s =
              1 + r.1.retry_count) ∧
          (1 ≤ n → r.1.success = false →
            r.1.retry_count = s + n ∧
              (executedAttempts env (List.range' s n)).length = n)) := by
  intro n
  induction n with
  | zero =>
    intro s m hm r hr
    rw [show List.range' s 0 = [] from rfl, retryLoop_nil] at hr
    cases Except.ok.inj hr
    constructor
    · intro hsucc
      rw [hm] at hsucc
      exact absurd hsucc (by simp)
    · intro h1
      omega
  | succ n ih =>
    intro s m hm r hr
    rw [List.range'_succ s n 1] at hr ⊢
    cases hout : (env s).outcome with
    | ok rs =>
      rw [retryLoop_cons_ok ca env s _ m rs hout] at hr
      cases Except.ok.inj hr
      rw [executedAttempts_cons_ok env s _ rs hout]
      constructor
      · intro _
        simp
      · intro _ hfail
        simp at hfail
    | error err =>
      cases hrb : (env s).rollback with
      | some rbErr =>
        rw [retryLoop_cons_rollback_error ca env s _ m err rbErr hout hrb] at hr
        exact absurd hr (by simp)
      | none =>
        rw [retryLoop_cons_error ca env s _ m err hout hrb] at hr
        rw [executedAttempts_cons_error env s _ err hout hrb]
        have hm2 : (errorUpdate (applyChaos m (firedFault ca (env s))) err
            (env s).elapsed s).success = false := by
          simpa using hm
        by_cases hn : n = 0
        · subst hn
          rw [show List.range' (s + 1) 0 = [] from rfl] at hr ⊢
          rw [retryLoop_nil] at hr
          cases Except.ok.inj hr
          refine ⟨fun hsucc => absurd hsucc (by simp [hm]), fun _ _ => ?_⟩
          refine ⟨by simp, ?_⟩
          rw [show executedAttempts env [] = [] from rfl]
          rfl
        · obtain ⟨ihs, ihf⟩ := ih (s + 1) _ hm2 r hr
          constructor
          · intro hsucc
            have := ihs hsucc
            simp only [List.length_cons]
            omega
          · intro _ hfail
            obtain ⟨h1, h2⟩ := ihf (by omega) hfail
            refine ⟨by omega, ?_⟩
            simp only [List.length_cons]
            omega

/-- Claim C7: for every environment, query and `max_retries >= 1`, if the
call returns normally and its final metrics record has `success = false`,
then the loop consumed exactly `max_retries` attempts — a task only ends
in failure after exhausting every allowed attempt. -/
theorem exhausted_task_consumed_all_attempts (ca : Bool) (env : ℕ → AttemptEnv)
    (q : String) (ts : ℤ) (mr : ℤ) (h : 1 ≤ mr)
    (r : QueryMetrics × Option (List Row))
    (hr : execute_query_with_retry ca env q ts mr = Except.ok r)
    (hfail : r.1.success = false) :
    (attemptsConsumed env mr : ℤ) = mr := by
  unfold execute_query_with_retry at hr
  unfold attemptsConsumed
  rw [List.range_eq_range' mr.toNat] at hr ⊢
  obtain ⟨_, hf⟩ := retryLoop_range'_count ca env mr.toNat 0
    { prompt := "", sql_query := q, execution_time := 0, retry_count := 0,
      success := false, error_type := none, rows_returned := 0,
      chaos_type := none, timestamp := ts } rfl r hr
  obtain ⟨h1, h2⟩ := hf (by omega) hfail
  rw [h2]
  omega

/-- The metrics record produced by two failing attempts (rollbacks
succeeding) with `max_retries = 2`. -/
def exhaustedRecord : QueryMetrics :=
  { prompt := "", sql_query := "SELECT 2;", execution_time := 0, retry_count := 2,
    success := false, error_type := some "boom", rows_returned := 0,
    chaos_type := none, timestamp := 0 }

/-- Witness for `exhausted_task_consumed_all_attempts`: two always-failing
attempts with `max_retries = 2` consume both attempts. -/
theorem exhausted_task_consumed_all_attempts_witness :
    (1 : ℤ) ≤ 2 ∧
    execute_query_with_retry true (fun _ => quietErr "boom") "SELECT 2;" 0 2 =
      Except.ok (exhaustedRecord, none) ∧
    (attemptsConsumed (fun _ => quietErr "boom") 2 : ℤ) = 2 :=
  ⟨by norm_num, by rfl,
    exhausted_task_consumed_all_attempts true (fun _ => quietErr "boom") "SELECT 2;" 0 2
      (by norm_num) (exhaustedRecord, none) (by rfl) rfl⟩

/-- Claim C2 counterexample: with `max_retries = 1` and a single failing
attempt, the loop consumes 1 attempt but stores `retry_count = 1`, so the
claimed equality `attempts consumed = 1 + retry_count` fails in the
exhausted state. -/
theorem attempts_consumed_eq_one_plus_retry_count_false :
    attemptsConsumed (fun _ => quietErr "boom") 1 = 1 ∧
    ((execute_query_with_retry true (fun _ => quietErr "boom") "SELECT 1;" 0 1).toOption.map
        fun r => r.1.retry_count) = some 1 ∧
    attemptsConsumed (fun _ => quietErr "boom") 1 ≠ 1 + 1 := by
  decide

/-- Claim C2 amended: for every environment, query and `max_retries >= 1`,
on a normal return a task that ends in success satisfies
`attempts consumed = 1 + retry_count`, while a task that ends exhausted
satisfies `attempts consumed = retry_count` (both being `max_retries`),
because the except branch stores `retry_count = attempt + 1`. -/
theorem attempts_consumed_vs_retry_count (ca : Bool) (env : ℕ → AttemptEnv)
    (q : String) (ts : ℤ) (mr : ℤ) (h : 1 ≤ mr)
    (r : QueryMetrics × Option (List Row))
    (hr : execute_query_with_retry ca env q ts mr = Except.ok r) :
    (r.1.success = true → attemptsConsumed env mr = 1 + r.1.retry_count) ∧
    (r.1.success = false → attemptsConsumed env mr = r.1.retry_count) := by
  unfold execute_query_with_retry at hr
  unfold attemptsConsumed
  rw [List.range_eq_range' mr.toNat] at hr ⊢
  obtain ⟨hs, hf⟩ := retryLoop_range'_count ca env mr.toNat 0
    { prompt := "", sql_query := q, execution_time := 0, retry_count := 0,
      success := false, error_type := none, rows_returned := 0,
      chaos_type := none, timestamp := ts } rfl r hr
  constructor
  · intro hsucc
    have := hs hsucc
    omega
  · intro hfail
    obtain ⟨h1, h2⟩ := hf (by omega) hfail
    omega

/-- The metrics record produced by a first-attempt success with no chaos. -/
def firstOkRecord : QueryMetrics :=
  { prompt := "", sql_query := "SELECT 3;", execution_time := 0, retry_count := 0,
    success := true, error_type := none, rows_returned := 0,
    chaos_type := none, timestamp := 0 }

/-- Witness for `attempts_consumed_vs_retry_count`: a first-attempt success
with `max_retries = 3`. -/
theorem attempts_consumed_vs_retry_count_witness :
    (1 : ℤ) ≤ 3 ∧
    execute_query_with_retry true (fun _ => quietOk []) "SELECT 3;" 0 3 =
      Except.ok (firstOkRecord, some []) ∧
    ((firstOkRecord.success = true →
        attemptsConsumed (fun _ => quietOk []) 3 = 1 + firstOkRecord.retry_count) ∧
      (firstOkRecord.success = false →
        attemptsConsumed (fun _ => quietOk []) 3 = firstOkRecord.retry_count)) :=
  ⟨by norm_num, by rfl,
    attempts_consumed_vs_retry_count true (fun _ => quietOk []) "SELECT 3;" 0 3
      (by norm_num) (firstOkRecord, some []) (by rfl)⟩

/-- The error classification left in `error_type` by the loop on a normal
return: `none` when the first attempt of the window succeeds (or the
window is empty), and otherwise the error of the last failing attempt
that ran before the loop returned — which is not cleared by a later
success. -/
def lastAttemptError (env : ℕ → AttemptEnv) : List ℕ → Option String
  | [] => none
  | a :: rest =>
    match (env a).outcome with
    | Except.ok _ => none
    | Except.error err => some ((lastAttemptError env rest).getD err)

/-- `error_type` after a normally-returning run of the loop is
`lastAttemptError` relative to the starting record's classification. -/
theorem retryLoop_error_type (ca : Bool) (env : ℕ → AttemptEnv) (as : List ℕ) :
    ∀ (m : QueryMetrics) (r : QueryMetrics × Option (List Row)),
      retryLoop ca env as m = Except.ok r →
      r.1.error_type = (lastAttemptError env as).elim m.error_type some := by
  induction as with
  | nil =>
    intro m r hr
    rw [retryLoop_nil] at hr
    cases Except.ok.inj hr
    rfl
  | cons a rest ih =>
    intro m r hr
    cases hout : (env a).outcome with
    | ok rs =>
      rw [retryLoop_cons_ok ca env a rest m rs hout] at hr
      cases Except.ok.inj hr
      simp [lastAttemptError, hout]
    | error err =>
      cases hrb : (env a).rollback with
      | some rbErr =>
        rw [retryLoop_cons_rollback_error ca env a rest m err rbErr hout hrb] at hr
        exact absurd hr (by simp)
      | none =>
        rw [retryLoop_cons_error ca env a rest m err hout hrb] at hr
        rw [ih _ r hr]
        simp only [lastAttemptError, hout, errorUpdate_error_type]
        cases h : lastAttemptError env rest <;> simp [h]

/-- An environment whose first attempt raises "boom" (rollback succeeding)
and whose later attempts succeed, with no chaos. -/
def failThenOkEnv : ℕ → AttemptEnv :=
  fun a => if a = 0 then quietErr "boom" else quietOk []

/-- Claim C1 counterexample: with `max_retries = 3`, a task whose first
attempt raises "boom" and whose second attempt succeeds returns normally
with `success = true` and yet `error_type = some "boom"`: the stale
classification of the earlier failed attempt is never cleared on a later
success. -/
theorem success_with_stale_error_classification :
    ((execute_query_with_retry true failThenOkEnv "SELECT 1;" 0 3).toOption.map
        fun r => (r.1.success, r.1.error_type)) = some (true, some "boom") := by
  decide

/-- Claim C1 amended: on a normal return whose final record has
`success = true`, the record has `rows_returned >= 0`, and its
`error_type` equals `lastAttemptError` over the attempt window — `none`
exactly when no earlier attempt failed, and the last failed attempt's
error otherwise (it is not reset to `none` when a later attempt
succeeds). -/
theorem success_rows_and_error_classification (ca : Bool) (env : ℕ → AttemptEnv)
    (q : String) (ts : ℤ) (mr : ℤ) (r : QueryMetrics × Option (List Row))
    (hr : execute_query_with_retry ca env q ts mr = Except.ok r)
    (_hs : r.1.success = true) :
    0 ≤ r.1.rows_returned ∧
    r.1.error_type = lastAttemptError env (List.range mr.toNat) := by
  refine ⟨Nat.zero_le _, ?_⟩
  unfold execute_query_with_retry at hr
  rw [retryLoop_error_type ca env (List.range mr.toNat) _ r hr]
  cases lastAttemptError env (List.range mr.toNat) <;> rfl

/-- The metrics record produced by `failThenOkEnv` with `max_retries = 3`:
a success on the second attempt retaining the first attempt's error. -/
def failThenOkRecord : QueryMetrics :=
  { prompt := "", sql_query := "SELECT 4;", execution_time := 0, retry_count := 1,
    success := true, error_type := some "boom", rows_returned := 0,
    chaos_type := none, timestamp := 0 }

/-- Witness for `success_rows_and_error_classification`: a fail-then-succeed
task, on which the retained classification is `some "boom"`. -/
theorem success_rows_and_error_classification_witness :
    execute_query_with_retry true failThenOkEnv "SELECT 4;" 0 3 =
      Except.ok (failThenOkRecord, some []) ∧
    failThenOkRecord.success = true ∧
    (0 ≤ failThenOkRecord.rows_returned ∧
      failThenOkRecord.error_type =
        lastAttemptError failThenOkEnv (List.range (3 : ℤ).toNat)) :=
  ⟨by rfl, rfl,
    success_rows_and_error_classification true failThenOkEnv "SELECT 4;" 0 3
      (failThenOkRecord, some []) (by rfl) rfl⟩

/-- The fold that `metrics.chaos_type` undergoes across a list of per-attempt
fired faults: each fired fault overwrites the stored one, so the result is
the most recently fired fault, or the initial value when none fired. -/
def lastFiredFault (ca : Bool) (env : ℕ → AttemptEnv) (as : List ℕ) : Option String :=
  (as.map fun a => firedFault ca (env a)).foldl
    (fun acc f => if f.isSome then f else acc) none

/-- `chaos_type` after a normally-returning run of the loop is the
overwrite-fold of the fired faults along the executed attempts, starting
from the incoming record. -/
theorem retryLoop_chaos_type (ca : Bool) (env : ℕ → AttemptEnv) (as : List ℕ) :
    ∀ (m : QueryMetrics) (r : QueryMetrics × Option (List Row)),
      retryLoop ca env as m = Except.ok r →
      r.1.chaos_type =
        ((executedAttempts env as).map fun a => firedFault ca (env a)).foldl
          (fun acc f => if f.isSome then f else acc) m.chaos_type := by
  induction as with
  | nil =>
    intro m r hr
    rw [retryLoop_nil] at hr
    cases Except.ok.inj hr
    rfl
  | cons a rest ih =>
    intro m r hr
    cases hout : (env a).outcome with
    | ok rs =>
      rw [retryLoop_cons_ok ca env a rest m rs hout] at hr
      cases Except.ok.inj hr
      rw [executedAttempts_cons_ok env a rest rs hout]
      simp [applyChaos_chaos_type]
    | error err =>
      cases hrb : (env a).rollback with
      | some rbErr =>
        rw [retryLoop_cons_rollback_error ca env a rest m err rbErr hout hrb] at hr
        exact absurd hr (by simp)
      | none =>
        rw [retryLoop_cons_error ca env a rest m err hout hrb] at hr
        rw [executedAttempts_cons_error env a rest err hout hrb, ih _ r hr]
        simp [applyChaos_chaos_type]

/-- An environment on which the network fault "latency" fires on the failing
first attempt (rollback succeeding) and "timeout" fires on the succeeding
second attempt. -/
def shiftingChaosEnv : ℕ → AttemptEnv :=
  fun a =>
    if a = 0 then
      { resource_draw := 1, network_draw := mkRat 1 10, network_choice := 0,
        db_draw := 1, db_choice := 0, outcome := Except.error "boom",
        rollback := none, elapsed := 0 }
    else
      { resource_draw := 1, network_draw := mkRat 1 10, network_choice := 1,
        db_draw := 1, db_choice := 0, outcome := Except.ok [],
        rollback := none, elapsed := 0 }

/-- Claim C4 counterexample: the fault fired on the first attempt is
"latency", but the final record stores "timeout", the fault of the later
(second) attempt — later faults do replace the first one. -/
theorem chaos_type_not_first_fired :
    firedFault true (shiftingChaosEnv 0) = some "latency" ∧
    ((execute_query_with_retry true shiftingChaosEnv "SELECT 5;" 0 3).toOption.map
        fun r => r.1.chaos_type) = some (some "timeout") := by
  decide

/-- Claim C4 amended: on a normal return, the chaos scenario stored in the
final record is the fault kind fired on the *last* executed attempt on
which one fired (with a network issue taking precedence over database
chaos within an attempt), or `none` when none fired. -/
theorem chaos_type_is_last_fired (ca : Bool) (env : ℕ → AttemptEnv)
    (q : String) (ts : ℤ) (mr : ℤ) (r : QueryMetrics × Option (List Row))
    (hr : execute_query_with_retry ca env q ts mr = Except.ok r) :
    r.1.chaos_type =
      lastFiredFault ca env (executedAttempts env (List.range mr.toNat)) := by
  unfold execute_query_with_retry at hr
  unfold lastFiredFault
  rw [retryLoop_chaos_type ca env (List.range mr.toNat) _ r hr]

/-- The metrics record produced by `shiftingChaosEnv` with
`max_retries = 3`: a second-attempt success carrying the later fault. -/
def shiftingRunRecord : QueryMetrics :=
  { prompt := "", sql_query := "SELECT 5;", execution_time := 0, retry_count := 1,
    success := true, error_type := some "boom", rows_returned := 0,
    chaos_type := some "timeout", timestamp := 0 }

/-- Witness for `chaos_type_is_last_fired` on the two-fault environment. -/
theorem chaos_type_is_last_fired_witness :
    execute_query_with_retry true shiftingChaosEnv "SELECT 5;" 0 3 =
      Except.ok (shiftingRunRecord, some []) ∧
    shiftingRunRecord.chaos_type =
      lastFiredFault true shiftingChaosEnv
        (executedAttempts shiftingChaosEnv (List.range (3 : ℤ).toNat)) :=
  ⟨by rfl,
    chaos_type_is_last_fired true shiftingChaosEnv "SELECT 5;" 0 3
      (shiftingRunRecord, some []) (by rfl)⟩

/-- An environment on which only the resource-exhaustion scenario activates
(draw 1/10 < 1/5) and every query attempt succeeds. -/
def resourceOnlyEnv : ℕ → AttemptEnv :=
  fun _ =>
    { resource_draw := mkRat 1 10, network_draw := 1, network_choice := 0,
      db_draw := 1, db_choice := 0, outcome := Except.ok [],
      rollback := none, elapsed := 0 }

/-- Claim C5 counterexample: the resource-exhaustion scenario activates on
every attempt (its draw is below the 0.2 threshold), yet
`simulate_resource_constraints` reports no fault kind, the final record's
`chaos_type` stays `none`, and the run's chaos-incident count is 0 —
the fired fault is neither reported nor recorded nor counted. -/
theorem resource_fault_unreported :
    mkRat 1 10 < mkRat 1 5 ∧
    simulate_resource_constraints (mkRat 1 10) = none ∧
    ((execute_query_with_retry true resourceOnlyEnv "SELECT 6;" 0 3).toOption.map
        fun r => r.1.chaos_type) = some none ∧
    ((analyze_metrics
        (([execute_query_with_retry true resourceOnlyEnv "SELECT 6;" 0 3]).filterMap
          fun x => x.toOption.map Prod.fst)).toOption.map
        fun a => a.chaos_incidents) = some 0 := by
  decide

/-- Claim C5 amended: when the network or database chaos scenarios activate
they report their fault kind to the caller (so it can be recorded and
counted), but `simulate_resource_constraints` returns nothing on every
draw — an activated resource-exhaustion fault is never reported. -/
theorem fault_kind_reporting (d1 d2 d3 : ℚ) (c2 c3 : ℕ)
    (h2 : ¬ d2 > mkRat 1 5) (h3 : ¬ d3 > mkRat 3 10) :
    simulate_resource_constraints d1 = none ∧
    (simulate_network_issues true d2 c2).isSome = true ∧
    (simulate_db_specific_chaos true d3 c3).isSome = true := by
  refine ⟨?_, ?_, ?_⟩
  · simp [simulate_resource_constraints]
  · simp [simulate_network_issues, h2]
  · simp [simulate_db_specific_chaos, h3]

/-- Witness for `fault_kind_reporting` at draw 0 for all three scenarios. -/
theorem fault_kind_reporting_witness :
    (¬ (0 : ℚ) > mkRat 1 5) ∧ (¬ (0 : ℚ) > mkRat 3 10) ∧
    (simulate_resource_constraints 0 = none ∧
      (simulate_network_issues true 0 0).isSome = true ∧
      (simulate_db_specific_chaos true 0 0).isSome = true) :=
  ⟨by decide, by decide, fault_kind_reporting 0 0 0 0 0 (by decide) (by decide)⟩

/-- Claim C10: calling `execute_query_with_retry` with `max_retries <= 0`
raises nothing and performs no query attempt: it returns normally with
the freshly initialised metrics record (`success = false`,
`retry_count = 0`, `error_type = none`, `rows_returned = 0`,
`chaos_type = none`) and no result set, with zero attempts consumed. -/
theorem nonpositive_max_retries_returns_initial (ca : Bool) (env : ℕ → AttemptEnv)
    (q : String) (ts : ℤ) (mr : ℤ) (h : mr ≤ 0) :
    execute_query_with_retry ca env q ts mr =
      Except.ok
        ({ prompt := "", sql_query := q, execution_time := 0, retry_count := 0,
           success := false, error_type := none, rows_returned := 0,
           chaos_type := none, timestamp := ts }, none) ∧
    attemptsConsumed env mr = 0 := by
  have h0 : mr.toNat = 0 := by omega
  unfold execute_query_with_retry attemptsConsumed
  rw [h0]
  exact ⟨rfl, rfl⟩

/-- Witness for `nonpositive_max_retries_returns_initial` at
`max_retries = -1` over an environment whose attempts would all succeed. -/
theorem nonpositive_max_retries_returns_initial_witness :
    (-1 : ℤ) ≤ 0 ∧
    (execute_query_with_retry true (fun _ => quietOk []) "SELECT 8;" 0 (-1) =
      Except.ok
        ({ prompt := "", sql_query := "SELECT 8;", execution_time := 0, retry_count := 0,
           success := false, error_type := none, rows_returned := 0,
           chaos_type := none, timestamp := 0 }, none) ∧
      attemptsConsumed (fun _ => quietOk []) (-1) = 0) :=
  ⟨by norm_num,
    nonpositive_max_retries_returns_initial true (fun _ => quietOk []) "SELECT 8;" 0 (-1)
      (by norm_num)⟩

/-- Claim C8: `analyze_metrics` invoked on an empty sequence of metrics
returns the defined no-data sentinel instead of computing any aggregate,
so no division by the zero task count is ever performed. -/
theorem analyze_metrics_empty_sentinel :
    analyze_metrics [] = Except.error "No metrics collected yet." := rfl

/-- The metrics of the scenario run from the spec, collected the way the
harness loop collects them (main.py lines 209-211: one record per
normally-returning call): 7 tasks that succeed on their first attempt and
3 tasks that exhaust all of `max_retries = 3` attempts. -/
def sevenThreeRun : List QueryMetrics :=
  (List.replicate 7
      (execute_query_with_retry true (fun _ => quietOk []) "SELECT ok;" 0 3) ++
    List.replicate 3
      (execute_query_with_retry true (fun _ => quietErr "boom") "SELECT bad;" 0 3)).filterMap
    fun x => x.toOption.map Prod.fst

/-- Claim C3 counterexample: on the 7-success / 3-exhausted run the analysis
reports `total_retries = 9`, not 6, because each exhausted task stores
`retry_count = max_retries = 3` rather than the 2 extra attempts. -/
theorem seven_three_run_total_retries_ne_six :
    ((analyze_metrics sevenThreeRun).toOption.map fun a => a.total_retries) = some 9 ∧
    ((analyze_metrics sevenThreeRun).toOption.map fun a => a.total_retries) ≠ some 6 := by
  decide

/-- Claim C3 amended: on the 7-success / 3-exhausted run with
`max_retries = 3`, the analysis reports `total_queries = 10` and
`successful_queries = 7` — a success ratio of 7/10 = 0.7, though no
success-rate field exists — and `total_retries = 9`. -/
theorem seven_three_run_summary :
    ((analyze_metrics sevenThreeRun).toOption.map fun a =>
      (a.total_queries, a.successful_queries, a.total_retries)) = some (10, 7, 9) := by
  decide

/-- `List.maximum` is invariant under permutation. -/
theorem maximum_perm {α : Type} [LinearOrder α] {l1 l2 : List α}
    (h : l1.Perm l2) : l1.maximum = l2.maximum := by
  apply le_antisymm
  · exact List.maximum_le_of_forall_le fun a ha =>
      List.le_maximum_of_mem' (h.mem_iff.mp ha)
  · exact List.maximum_le_of_forall_le fun a ha =>
      List.le_maximum_of_mem' (h.mem_iff.mpr ha)

/-- Claim C9: on a non-empty metrics sequence, `analyze_metrics` yields
identical aggregates (task count, success count, mean and maximum
execution time, total retries, chaos incidents) on every permutation of
the sequence. -/
theorem analyze_metrics_perm_invariant (l1 l2 : List QueryMetrics)
    (hne : l1 ≠ []) (h : l1.Perm l2) :
    analyze_metrics l1 = analyze_metrics l2 := by
  have h2 : l2 ≠ [] := fun e => hne (List.perm_nil.mp (e ▸ h))
  have e1 : l1.isEmpty = false := by simpa [List.isEmpty_iff] using hne
  have e2 : l2.isEmpty = false := by simpa [List.isEmpty_iff] using h2
  simp only [analyze_metrics, e1, e2, Bool.false_eq_true, if_false]
  rw [h.length_eq, (h.filter fun m => m.success).length_eq,
    (h.map fun m => m.execution_time).sum_eq,
    maximum_perm (h.map fun m => m.execution_time),
    (h.map fun m => m.retry_count).sum_eq,
    (h.filter fun m => m.chaos_type.isSome).length_eq]

/-- Two fixed metrics records used to witness permutation invariance. -/
def metricA : QueryMetrics :=
  { prompt := "a", sql_query := "qa", execution_time := 1, retry_count := 0,
    success := true, error_type := none, rows_returned := 2,
    chaos_type := none, timestamp := 0 }

/-- A failing metrics record used to witness permutation invariance. -/
def metricB : QueryMetrics :=
  { prompt := "b", sql_query := "qb", execution_time := 2, retry_count := 3,
    success := false, error_type := some "e", rows_returned := 0,
    chaos_type := some "latency", timestamp := 1 }

/-- Witness for `analyze_metrics_perm_invariant` on a two-element sequence
and its swap. -/
theorem analyze_metrics_perm_invariant_witness :
    ([metricA, metricB] : List QueryMetrics) ≠ [] ∧
    analyze_metrics [metricA, metricB] = analyze_metrics [metricB, metricA] :=
  ⟨by simp,
    analyze_metrics_perm_invariant [metricA, metricB] [metricB, metricA]
      (by simp) (List.Perm.swap metricB metricA [])⟩
